import Mathlib

/-!
# doorlockd: the `Logger` class of `lib/logger.cpp`

A shallow embedding of `Logger` and of the part of its environment that it
touches: the standard error stream, the files reachable through the log file
stream, the wall clock (its `strftime` text is an input of every emit) and the
C library calls `vsnprintf` and `malloc` of the formatted emit (their results
are inputs).

Streams are modelled as the text written to them so far; `std::endl` is the
newline character (the flush is not visible in the text).  Write errors on a
stream and the mutex `_ostreamMutex` are not modelled: every operation runs to
completion on its own.
-/

namespace Doorlockd

/-! ## Data model -/

/-- Modelled from the spec: the enumeration `LogLevel` is declared in `logger.h`,
which is not among the sources.  The spec gives six levels, ordered from the
most to the least severe: error, warning, notice, info, debug, debug2. -/
inductive LogLevel where
  | error
  | warning
  | notice
  | info
  | debug
  | debug2
  deriving DecidableEq, Repr

/-- Modelled from the spec: the ordinal of a level in the enumeration of `logger.h`;
the comparison `level > _level` of the source compares these ordinals. -/
def LogLevel.ord : LogLevel → Nat
  | .error => 0
  | .warning => 1
  | .notice => 2
  | .info => 3
  | .debug => 4
  | .debug2 => 5

/-- The three ways the preprocessor builds the body of the emit operator:
without `USE_COLORIZED_LOGS`, with it outside `_WIN32`, with it on `_WIN32`. -/
inductive Build where
  | plain
  | ansi
  | win32
  deriving DecidableEq, Repr

/-- The table `prefix_ansicolor` (every level has an entry, so `.at` never throws). -/
def prefix_ansicolor : LogLevel → String
  | .error => "\x1b[1m\x1b[31m"
  | .warning => "\x1b[1m\x1b[33m"
  | .notice => "\x1b[1m\x1b[34m"
  | .info => "\x1b[1m\x1b[32m"
  | .debug => "\x1b[1m\x1b[35m"
  | .debug2 => "\x1b[1m\x1b[36m"

/-- The constant `suffix_ansireset`. -/
def suffix_ansireset : String := "\x1b[0m"

/-- The table `logLevel` (every level has an entry, so `.at` never throws). -/
def logLevel : LogLevel → String
  | .error => "ERROR  "
  | .warning => "WARNING"
  | .notice => "NOTICE "
  | .info => "INFO   "
  | .debug => "DEBUG  "
  | .debug2 => "DEBUG2 "

/-- The members of `Logger`.  The stream `_logFile` is represented by what
`is_open` observes: `none` when closed, `some path` when open on `path`. -/
structure Logger where
  _level : LogLevel
  _consoleActive : Bool
  _logFileActive : Bool
  _logFile : Option String

/-- The environment of the logger: the text written to `std::cerr`, the content
of the files by path (`none`: no such file), and which paths the operating
system lets the process open for appending. -/
structure Sys where
  cerr : String
  fs : String → Option String
  openable : String → Bool

/-- How a call ends: it returns, it throws `std::runtime_error(what)`, or it
reaches undefined behaviour; each with the state reached at that point. -/
inductive Outcome where
  | returned (lg : Logger) (sys : Sys)
  | threw (what : String) (lg : Logger) (sys : Sys)
  | undefined (lg : Logger) (sys : Sys)

/-- The logger state an outcome carries. -/
def Outcome.logger : Outcome → Logger
  | .returned lg _ => lg
  | .threw _ lg _ => lg
  | .undefined lg _ => lg

/-- The environment an outcome carries. -/
def Outcome.sys : Outcome → Sys
  | .returned _ sys => sys
  | .threw _ _ sys => sys
  | .undefined _ sys => sys

/-! ## Operations -/

/-- Appending `text` to the file at `path` through a stream opened with `app`. -/
def Sys.appendFile (sys : Sys) (path text : String) : Sys :=
  { sys with fs := fun q => if q = path then some ((sys.fs q).getD "" ++ text) else sys.fs q }

/-- What the stream `prefix` of the emit operator holds before the critical section. -/
def prefixStr (b : Build) (timeBuffer : String) (level : LogLevel) : String :=
  (match b with
    | .ansi => prefix_ansicolor level
    | _ => "") ++ "[" ++ timeBuffer ++ "] -- " ++ logLevel level ++ " :: "

/-- The text one `<<` chain of the critical section sends to `std::cerr`.  On
`_WIN32` the colour is set through the console attribute, not in the text. -/
def consoleRecord (b : Build) (timeBuffer message : String) (level : LogLevel) : String :=
  match b with
  | .ansi => prefixStr b timeBuffer level ++ message ++ suffix_ansireset ++ "\n"
  | _ => prefixStr b timeBuffer level ++ message ++ "\n"

/-- The text one `<<` chain of the critical section sends to `_logFile`. -/
def fileRecord (b : Build) (timeBuffer message : String) (level : LogLevel) : String :=
  match b with
  | .ansi => prefixStr b timeBuffer level ++ message ++ suffix_ansireset ++ "\n"
  | _ => prefixStr b timeBuffer level ++ message ++ "\n"

/-- `Logger::operator()(const std::string &message, const LogLevel level)`;
`timeBuffer` is the text `strftime` produced from the clock. -/
def emit (b : Build) (lg : Logger) (sys : Sys) (timeBuffer message : String)
    (level : LogLevel) : Logger × Sys :=
  if level.ord > lg._level.ord then
    (lg, sys)
  else
    let sys1 :=
      if lg._consoleActive then
        { sys with cerr := sys.cerr ++ consoleRecord b timeBuffer message level }
      else sys
    let sys2 :=
      match lg._logFileActive, lg._logFile with
      | true, some path => sys1.appendFile path (fileRecord b timeBuffer message level)
      | _, _ => sys1
    (lg, sys2)

/-- `Logger::operator()(const std::ostringstream &message, const LogLevel level)`;
`str` is `message.str()`. -/
def emitStream (b : Build) (lg : Logger) (sys : Sys) (timeBuffer str : String)
    (level : LogLevel) : Logger × Sys :=
  emit b lg sys timeBuffer str level

/-- What the C library answers during one formatted emit: `probe` is the value
of `vsnprintf(nullptr, 0, format, argp)`, `mallocOk` tells whether `malloc(size)`
returned a pointer other than null, and `text` is the C string the second
`vsnprintf` leaves in a buffer of `size` bytes. -/
structure Vsnprintf where
  probe : Int
  mallocOk : Bool
  text : String

/-- `Logger::operator()(const LogLevel level, const char* format, ...)`.
Undefined behaviour is reached when `probe + 1` overflows `int`, when the null
pointer is handed to `std::string` after a failed allocation, and when a buffer
of zero bytes is read as a C string. -/
def emitf (b : Build) (lg : Logger) (sys : Sys) (timeBuffer : String)
    (level : LogLevel) (v : Vsnprintf) : Outcome :=
  if level.ord > lg._level.ord then
    .returned lg sys
  else if v.probe ≥ 2 ^ 31 - 1 then
    .undefined lg sys
  else
    let size : Int := v.probe + 1
    if size ≥ 0 then
      if !v.mallocOk then
        let r := emit b lg sys timeBuffer "[LOGGER] CRITICAL: MEMORY ALLOCATION ERROR" .error
        .undefined r.1 r.2
      else if size = 0 then
        .undefined lg sys
      else
        let r := emit b lg sys timeBuffer v.text level
        .returned r.1 r.2
    else
      let r := emit b lg sys timeBuffer "[LOGGER] CRITICAL: VSNPRINTF ERROR" .error
      .returned r.1 r.2

/-- `void Logger::level(const LogLevel level)`. -/
def Logger.setLevel (lg : Logger) (level : LogLevel) : Logger :=
  { lg with _level := level }

/-- `LogLevel Logger::level() const`. -/
def Logger.level (lg : Logger) : LogLevel := lg._level

/-- `bool Logger::console() const`. -/
def Logger.console (lg : Logger) : Bool := lg._consoleActive

/-- `void Logger::console(const bool active)`. -/
def Logger.setConsole (lg : Logger) (active : Bool) : Logger :=
  { lg with _consoleActive := active }

/-- `bool Logger::logFile() const`. -/
def Logger.logFile (lg : Logger) : Bool := lg._logFileActive

/-- `void Logger::logFile(const bool active)`. -/
def Logger.setLogFileActive (lg : Logger) (active : Bool) : Logger :=
  { lg with _logFileActive := active }

/-- `void Logger::setLogFile(const std::string &logFile)`.  A successful open
with `app` creates the file when it is missing and keeps its content otherwise. -/
def setLogFile (lg : Logger) (sys : Sys) (logFile : String) : Outcome :=
  let lg1 := if lg._logFile.isSome then { lg with _logFile := none } else lg
  if sys.openable logFile then
    .returned { lg1 with _logFile := some logFile } (sys.appendFile logFile "")
  else
    .threw ("Unable to open " ++ logFile) lg1 sys

/-- `Logger::~Logger()`. -/
def Logger.destroy (lg : Logger) : Logger :=
  if lg._logFile.isSome then { lg with _logFile := none } else lg

/-- A sequence of plain emit calls, each given as clock text, message and level. -/
def emitAll (b : Build) (lg : Logger) (sys : Sys) (es : List (String × String × LogLevel)) :
    Logger × Sys :=
  es.foldl (fun st e => emit b st.1 st.2 e.1 e.2.1 e.2.2) (lg, sys)

/-- The text a sequence of emits sends to the log file under threshold `T`: the
records of the emits that pass, in order. -/
def fileRecords (b : Build) (T : LogLevel) : List (String × String × LogLevel) → String
  | [] => ""
  | e :: es =>
    (if e.2.2.ord ≤ T.ord then fileRecord b e.1 e.2.1 e.2.2 else "") ++ fileRecords b T es

/-- The level names as the spec lists them. -/
def levelName : LogLevel → String
  | .error => "ERROR"
  | .warning => "WARNING"
  | .notice => "NOTICE"
  | .info => "INFO"
  | .debug => "DEBUG"
  | .debug2 => "DEBUG2"

/-- Left-justification as the spec words it: `s` followed by as many spaces as it
takes to reach `n` characters. -/
def ljust (n : Nat) (s : String) : String :=
  String.mk (s.data ++ List.replicate (n - s.length) ' ')

/-- The plain decorated line of the spec, without its newline. -/
def plainLine (ts m : String) (L : LogLevel) : String :=
  "[" ++ ts ++ "] -- " ++ ljust 7 (levelName L) ++ " :: " ++ m

/-- The six levels in the order of the enumeration. -/
def allLevels : List LogLevel :=
  [.error, .warning, .notice, .info, .debug, .debug2]

/-- A logger used to evaluate the operations: threshold `info`, both sinks enabled,
no file open. -/
def lgDemo : Logger :=
  { _level := .info, _consoleActive := true, _logFileActive := true, _logFile := none }

/-- An environment used to evaluate the operations: nothing written yet, one file
present, one path that cannot be opened. -/
def sysDemo : Sys :=
  { cerr := ""
    fs := fun q => if q = "/var/log/old.log" then some "kept\n" else none
    openable := fun q => q != "/no/such/dir/door.log" }

/-! ## Basic facts about the plain emit -/

theorem emit_fst (b : Build) (lg : Logger) (sys : Sys) (ts m : String) (L : LogLevel) :
    (emit b lg sys ts m L).1 = lg := by
  unfold emit
  split <;> rfl

theorem emit_filtered (b : Build) (lg : Logger) (sys : Sys) (ts m : String) (L : LogLevel)
    (h : lg._level.ord < L.ord) : emit b lg sys ts m L = (lg, sys) := by
  unfold emit
  simp [h]

theorem emit_cerr (b : Build) (lg : Logger) (sys : Sys) (ts m : String) (L : LogLevel)
    (h : L.ord ≤ lg._level.ord) :
    (emit b lg sys ts m L).2.cerr =
      if lg._consoleActive = true then sys.cerr ++ consoleRecord b ts m L else sys.cerr := by
  unfold emit
  rw [if_neg (by omega)]
  cases hc : lg._consoleActive <;> cases hf : lg._logFileActive <;>
    cases hp : lg._logFile <;> simp [Sys.appendFile]

theorem emit_fs_open (b : Build) (lg : Logger) (sys : Sys) (ts m : String) (L : LogLevel)
    (p : String) (h : L.ord ≤ lg._level.ord) (ha : lg._logFileActive = true)
    (hp : lg._logFile = some p) (q : String) :
    (emit b lg sys ts m L).2.fs q =
      if q = p then some ((sys.fs q).getD "" ++ fileRecord b ts m L) else sys.fs q := by
  unfold emit
  rw [if_neg (by omega)]
  cases hc : lg._consoleActive <;> simp [Sys.appendFile, ha, hp]

theorem emit_fs_skip (b : Build) (lg : Logger) (sys : Sys) (ts m : String) (L : LogLevel)
    (h : lg._logFileActive = false ∨ lg._logFile = none) :
    (emit b lg sys ts m L).2.fs = sys.fs := by
  unfold emit
  split
  · rfl
  · cases hc : lg._consoleActive <;> cases hf : lg._logFileActive <;>
      cases hp : lg._logFile <;> simp_all [Sys.appendFile]

theorem emit_openable (b : Build) (lg : Logger) (sys : Sys) (ts m : String) (L : LogLevel) :
    (emit b lg sys ts m L).2.openable = sys.openable := by
  unfold emit
  split
  · rfl
  · cases hc : lg._consoleActive <;> cases hf : lg._logFileActive <;>
      cases hp : lg._logFile <;> simp [Sys.appendFile]

theorem emitAll_nil (b : Build) (lg : Logger) (sys : Sys) : emitAll b lg sys [] = (lg, sys) := rfl

theorem emitAll_cons (b : Build) (lg : Logger) (sys : Sys) (e : String × String × LogLevel)
    (es : List (String × String × LogLevel)) :
    emitAll b lg sys (e :: es) =
      emitAll b (emit b lg sys e.1 e.2.1 e.2.2).1 (emit b lg sys e.1 e.2.1 e.2.2).2 es := rfl

theorem emitAll_fst (b : Build) (lg : Logger) (sys : Sys) (es : List (String × String × LogLevel)) :
    (emitAll b lg sys es).1 = lg := by
  induction es generalizing sys with
  | nil => rfl
  | cons e es ih => rw [emitAll_cons, emit_fst, ih]

/-- With the threshold at `error`, the emits of a sequence that are not at `error` can be
left out. -/
theorem emitAll_error_threshold (b : Build) (lg : Logger) (sys : Sys) (tss msgs : LogLevel → String)
    (h : lg._level = .error) (ls : List LogLevel) :
    emitAll b lg sys (ls.map fun K => (tss K, msgs K, K)) =
      emitAll b lg sys ((ls.filter fun K => K = .error).map fun K => (tss K, msgs K, K)) := by
  induction ls generalizing sys with
  | nil => rfl
  | cons K ls ih =>
    by_cases hK : K = .error
    · subst hK
      simp only [List.map_cons, List.filter_cons, decide_True, if_true, emitAll_cons, emit_fst]
      exact ih _
    · have hf : lg._level.ord < K.ord := by
        rw [h]; cases K <;> simp_all [LogLevel.ord]
      simp only [List.map_cons, List.filter_cons, hK, decide_False, emitAll_cons,
        emit_filtered b lg sys _ _ K hf]
      simpa using ih sys

/-! ## Records are never empty -/

theorem append_ne_self (s r : String) (h : r ≠ "") : s ++ r ≠ s := by
  intro he
  apply h
  have hd := congrArg String.data he
  rw [String.data_append] at hd
  exact String.ext (by simpa using hd)

theorem append_newline_ne_empty (s : String) : s ++ "\n" ≠ "" := by
  intro he
  have hl := congrArg String.length he
  rw [String.length_append] at hl
  have h1 : "\n".length = 1 := rfl
  have h0 : "".length = 0 := rfl
  omega

theorem consoleRecord_ne_empty (b : Build) (ts m : String) (L : LogLevel) :
    consoleRecord b ts m L ≠ "" := by
  cases b <;> exact append_newline_ne_empty _

theorem fileRecord_ne_empty (b : Build) (ts m : String) (L : LogLevel) :
    fileRecord b ts m L ≠ "" := by
  cases b <;> exact append_newline_ne_empty _

/-! ## Sequences of emits and the log file -/

theorem emitAll_fs_closed (b : Build) (lg : Logger) (sys : Sys)
    (es : List (String × String × LogLevel)) (h : lg._logFile = none) :
    (emitAll b lg sys es).2.fs = sys.fs := by
  induction es generalizing sys with
  | nil => rfl
  | cons e es ih =>
    rw [emitAll_cons, emit_fst, ih, emit_fs_skip b lg sys _ _ _ (Or.inr h)]

theorem emitAll_fs_open (b : Build) (lg : Logger) (sys : Sys)
    (es : List (String × String × LogLevel)) (q : String) (ha : lg._logFileActive = true)
    (hq : lg._logFile = some q) (r : String) :
    (emitAll b lg sys es).2.fs r =
      if r = q then
        (if fileRecords b lg._level es = "" then sys.fs r
          else some ((sys.fs r).getD "" ++ fileRecords b lg._level es))
      else sys.fs r := by
  induction es generalizing sys with
  | nil => simp [emitAll_nil, fileRecords]
  | cons e es ih =>
    rw [emitAll_cons, emit_fst, ih]
    by_cases hr : r = q
    · by_cases hpass : e.2.2.ord ≤ lg._level.ord
      · have hne := fileRecord_ne_empty b e.1 e.2.1 e.2.2
        have hne2 : fileRecord b e.1 e.2.1 e.2.2 ++ fileRecords b lg._level es ≠ "" := by
          intro he
          apply hne
          have hd := congrArg String.data he
          rw [String.data_append] at hd
          exact String.ext (by simpa using (List.append_eq_nil.mp hd).1)
        rw [emit_fs_open b lg sys _ _ _ q hpass ha hq r]
        simp only [fileRecords, hr, hpass, if_true, if_neg hne2]
        by_cases hrest : fileRecords b lg._level es = ""
        · simp [hrest]
        · simp [hrest, String.append_assoc]
      · have hf : lg._level.ord < e.2.2.ord := by omega
        rw [emit_filtered b lg sys _ _ _ hf]
        simp [fileRecords, hr, hpass]
    · simp only [hr, if_false]
      by_cases hpass : e.2.2.ord ≤ lg._level.ord
      · rw [emit_fs_open b lg sys _ _ _ q hpass ha hq r]
        simp [hr]
      · have hf : lg._level.ord < e.2.2.ord := by omega
        rw [emit_filtered b lg sys _ _ _ hf]

/-! ## Redirecting the log file -/

theorem setLogFile_of_not_openable (lg : Logger) (sys : Sys) (path : String)
    (h : sys.openable path = false) :
    setLogFile lg sys path =
      .threw ("Unable to open " ++ path) { lg with _logFile := none } sys := by
  cases lg with
  | mk l c f o => cases o <;> simp [setLogFile, h]

theorem setLogFile_of_openable (lg : Logger) (sys : Sys) (path : String)
    (h : sys.openable path = true) :
    setLogFile lg sys path =
      .returned { lg with _logFile := some path } (sys.appendFile path "") := by
  unfold setLogFile
  cases hp : lg._logFile <;> simp [h]

/-! ## The format of a record -/

theorem logLevel_eq_ljust (L : LogLevel) : logLevel L = ljust 7 (levelName L) := by
  cases L <;> decide

theorem ljust_levelName_length (L : LogLevel) : (ljust 7 (levelName L)).length = 7 := by
  cases L <;> decide

theorem record_plain (ts m : String) (L : LogLevel) :
    consoleRecord .plain ts m L = plainLine ts m L ++ "\n" ∧
    fileRecord .plain ts m L = plainLine ts m L ++ "\n" := by
  simp [consoleRecord, fileRecord, prefixStr, plainLine, logLevel_eq_ljust, String.append_assoc]

theorem record_ansi (ts m : String) (L : LogLevel) :
    consoleRecord .ansi ts m L =
      prefix_ansicolor L ++ plainLine ts m L ++ suffix_ansireset ++ "\n" ∧
    fileRecord .ansi ts m L =
      prefix_ansicolor L ++ plainLine ts m L ++ suffix_ansireset ++ "\n" := by
  simp [consoleRecord, fileRecord, prefixStr, plainLine, logLevel_eq_ljust, String.append_assoc]

/-! ## The formatted emit -/

theorem emitf_logger (b : Build) (lg : Logger) (sys : Sys) (ts : String) (L : LogLevel)
    (v : Vsnprintf) : (emitf b lg sys ts L v).logger = lg := by
  unfold emitf
  split
  · rfl
  · split
    · rfl
    · simp only []
      split
      · split
        · exact emit_fst _ _ _ _ _ _
        · split
          · rfl
          · exact emit_fst _ _ _ _ _ _
      · exact emit_fst _ _ _ _ _ _

/-- The fallback on a failed size probe is taken only when `vsnprintf` returns less
than `-1`. -/
theorem emitf_probe_below_minus_one (b : Build) (lg : Logger) (sys : Sys) (ts : String)
    (L : LogLevel) (v : Vsnprintf) (h : L.ord ≤ lg._level.ord) (hv : v.probe < -1) :
    emitf b lg sys ts L v =
      .returned (emit b lg sys ts "[LOGGER] CRITICAL: VSNPRINTF ERROR" .error).1
        (emit b lg sys ts "[LOGGER] CRITICAL: VSNPRINTF ERROR" .error).2 := by
  unfold emitf
  rw [if_neg (by omega), if_neg (by omega)]
  simp only []
  rw [if_neg (by omega)]

/-- Whenever `vsnprintf` returns `-1` the success branch is taken with a size of zero. -/
theorem emitf_probe_minus_one (b : Build) (lg : Logger) (sys : Sys) (ts : String)
    (L : LogLevel) (v : Vsnprintf) (h : L.ord ≤ lg._level.ord) (hv : v.probe = -1) :
    emitf b lg sys ts L v =
      if v.mallocOk = true then .undefined lg sys
      else .undefined (emit b lg sys ts "[LOGGER] CRITICAL: MEMORY ALLOCATION ERROR" .error).1
        (emit b lg sys ts "[LOGGER] CRITICAL: MEMORY ALLOCATION ERROR" .error).2 := by
  unfold emitf
  rw [if_neg (by omega), if_neg (by omega)]
  cases hm : v.mallocOk <;> simp [hv]

/-- After a failed allocation the call goes on past the diagnostic with the null buffer. -/
theorem emitf_malloc_failed (b : Build) (lg : Logger) (sys : Sys) (ts : String)
    (L : LogLevel) (v : Vsnprintf) (h : L.ord ≤ lg._level.ord) (h0 : -1 ≤ v.probe)
    (h1 : v.probe < 2 ^ 31 - 1) (hm : v.mallocOk = false) :
    emitf b lg sys ts L v =
      .undefined (emit b lg sys ts "[LOGGER] CRITICAL: MEMORY ALLOCATION ERROR" .error).1
        (emit b lg sys ts "[LOGGER] CRITICAL: MEMORY ALLOCATION ERROR" .error).2 := by
  unfold emitf
  rw [if_neg (by omega), if_neg (by omega)]
  simp only []
  rw [if_pos (by omega)]
  simp [hm]

/-- The line the log file receives, in every build, in terms of the plain decorated
line of the spec. -/
theorem fileRecord_format (b : Build) (ts m : String) (L : LogLevel) :
    fileRecord b ts m L =
      (if b = .ansi then prefix_ansicolor L ++ plainLine ts m L ++ suffix_ansireset
        else plainLine ts m L) ++ "\n" := by
  cases b
  · simpa using (record_plain ts m L).2
  · simpa using (record_ansi ts m L).2
  · simp [fileRecord, prefixStr, plainLine, logLevel_eq_ljust, String.append_assoc]

theorem prefix_ansicolor_length (L : LogLevel) : (prefix_ansicolor L).length = 9 := by
  cases L <;> decide

theorem suffix_ansireset_length : suffix_ansireset.length = 4 := by decide

/-- In the ANSI build the line written to the file is never the plain decorated line. -/
theorem fileRecord_ansi_ne_plain (ts m : String) (L : LogLevel) :
    fileRecord .ansi ts m L ≠ plainLine ts m L ++ "\n" := by
  intro he
  rw [(record_ansi ts m L).2] at he
  have hl := congrArg String.length he
  simp only [String.length_append, prefix_ansicolor_length, suffix_ansireset_length] at hl
  omega

/-! ## The claims -/

/-- C1: after `level(T)`, an emit at a level `L` whose ordinal is at most the one of `T`
leaves the logger as it is and appends exactly its one record to the console when the
console is enabled and to the open log file when the file sink is enabled; an emit at a
level strictly less severe than `T` returns the logger and the environment unchanged.
With `T = error`, one emit at each of the six levels, in any order, does what the single
emit at `error` does. -/
theorem emit_respects_threshold (b : Build) (lg : Logger) (sys : Sys) (T L : LogLevel)
    (ts m : String) :
    (L.ord ≤ T.ord →
      (emit b (lg.setLevel T) sys ts m L).1 = lg.setLevel T ∧
      (lg._consoleActive = true →
        (emit b (lg.setLevel T) sys ts m L).2.cerr = sys.cerr ++ consoleRecord b ts m L) ∧
      (∀ p, lg._logFileActive = true → lg._logFile = some p →
        (emit b (lg.setLevel T) sys ts m L).2.fs p =
          some ((sys.fs p).getD "" ++ fileRecord b ts m L))) ∧
    (T.ord < L.ord → emit b (lg.setLevel T) sys ts m L = (lg.setLevel T, sys)) ∧
    (∀ (tss msgs : LogLevel → String) (ls : List LogLevel), ls.Perm allLevels →
      emitAll b (lg.setLevel .error) sys (ls.map fun K => (tss K, msgs K, K)) =
        emit b (lg.setLevel .error) sys (tss .error) (msgs .error) .error) := by
  refine ⟨fun h => ⟨emit_fst _ _ _ _ _ _, fun hc => ?_, fun p ha hp => ?_⟩, fun h => ?_,
    fun tss msgs ls hperm => ?_⟩
  · rw [emit_cerr b (lg.setLevel T) sys ts m L h]
    simp [Logger.setLevel, hc]
  · rw [emit_fs_open b (lg.setLevel T) sys ts m L p h ha hp p]
    simp
  · exact emit_filtered b _ sys ts m L h
  · rw [emitAll_error_threshold b _ sys tss msgs rfl ls]
    have hf : (ls.filter fun K => K = LogLevel.error) = [LogLevel.error] := by
      have := hperm.filter (fun K => decide (K = LogLevel.error))
      simpa [allLevels, List.filter] using this
    rw [hf]
    rfl

theorem emit_respects_threshold_witness :
    LogLevel.warning.ord ≤ LogLevel.notice.ord ∧ LogLevel.notice.ord < LogLevel.debug.ord ∧
    (emit .plain (lgDemo.setLevel .notice) sysDemo "2015-10-21 07:28:00" "door unlocked"
        .warning).2.cerr = "[2015-10-21 07:28:00] -- WARNING :: door unlocked\n" ∧
    emit .plain (lgDemo.setLevel .notice) sysDemo "2015-10-21 07:28:00" "door unlocked" .debug =
      (lgDemo.setLevel .notice, sysDemo) :=
  ⟨by decide, by decide,
    (((emit_respects_threshold .plain lgDemo sysDemo .notice .warning "2015-10-21 07:28:00"
      "door unlocked").1 (by decide)).2.1 rfl).trans (by decide),
    (emit_respects_threshold .plain lgDemo sysDemo .notice .debug "2015-10-21 07:28:00"
      "door unlocked").2.1 (by decide)⟩

/-- C2: for an emit at a level that passes the threshold, the console receives the record
exactly when `_consoleActive` holds and is left as it is otherwise; a file receives the
record exactly when `_logFileActive` holds and the stream is open on it, and no file
changes otherwise (in particular when the file sink is enabled with no open stream); each
sink is decided by its own toggle.  With both toggles off an emit at any level returns
the logger and the environment unchanged. -/
theorem emit_sinks_independent (b : Build) (lg : Logger) (sys : Sys) (ts m : String)
    (L : LogLevel) :
    (L.ord ≤ lg._level.ord →
      ((emit b lg sys ts m L).2.cerr =
          if lg._consoleActive = true then sys.cerr ++ consoleRecord b ts m L else sys.cerr) ∧
      ((emit b lg sys ts m L).2.cerr ≠ sys.cerr ↔ lg._consoleActive = true) ∧
      (∀ q, (emit b lg sys ts m L).2.fs q =
          if lg._logFileActive = true ∧ lg._logFile = some q then
            some ((sys.fs q).getD "" ++ fileRecord b ts m L)
          else sys.fs q) ∧
      ((emit b lg sys ts m L).2.fs ≠ sys.fs ↔
          lg._logFileActive = true ∧ lg._logFile.isSome = true)) ∧
    (lg._consoleActive = false → lg._logFileActive = false →
      emit b lg sys ts m L = (lg, sys)) := by
  have hfs : L.ord ≤ lg._level.ord → ∀ q, (emit b lg sys ts m L).2.fs q =
      if lg._logFileActive = true ∧ lg._logFile = some q then
        some ((sys.fs q).getD "" ++ fileRecord b ts m L)
      else sys.fs q := by
    intro h q
    by_cases ha : lg._logFileActive = true
    · cases hp : lg._logFile with
      | none => rw [emit_fs_skip b lg sys ts m L (Or.inr hp)]; simp
      | some p =>
        rw [emit_fs_open b lg sys ts m L p h ha hp q]
        by_cases hq : q = p
        · simp [hq, ha]
        · have hq2 : ¬ p = q := fun e => hq e.symm
          simp [hq, hq2]
    · rw [emit_fs_skip b lg sys ts m L (Or.inl (by simpa using ha))]
      simp [ha]
  refine ⟨fun h => ⟨emit_cerr b lg sys ts m L h, ?_, hfs h, ?_⟩, fun hc hf => ?_⟩
  · rw [emit_cerr b lg sys ts m L h]
    cases hc : lg._consoleActive
    · simp
    · simpa using append_ne_self sys.cerr _ (consoleRecord_ne_empty b ts m L)
  · constructor
    · intro hne
      by_contra hcon
      apply hne
      apply emit_fs_skip
      cases ha : lg._logFileActive
      · exact Or.inl rfl
      · cases hp : lg._logFile
        · exact Or.inr rfl
        · simp [ha, hp] at hcon
    · rintro ⟨ha, hp⟩ he
      obtain ⟨p, hp⟩ := Option.isSome_iff_exists.mp hp
      have h1 := hfs h p
      rw [he, if_pos ⟨ha, hp⟩] at h1
      cases hc : sys.fs p with
      | none => simp [hc] at h1
      | some c =>
        rw [hc] at h1
        have h2 : c ++ fileRecord b ts m L = c := by simpa using h1.symm
        exact append_ne_self c _ (fileRecord_ne_empty b ts m L) h2
  · unfold emit
    split
    · rfl
    · simp [hc, hf]

theorem emit_sinks_independent_witness :
    LogLevel.error.ord ≤ lgDemo._level.ord ∧
    (emit .plain lgDemo sysDemo "2015-10-21 07:28:00" "bolt stuck" .error).2.cerr =
      "[2015-10-21 07:28:00] -- ERROR   :: bolt stuck\n" ∧
    (emit .plain lgDemo sysDemo "2015-10-21 07:28:00" "bolt stuck" .error).2.fs
      "/var/log/old.log" = some "kept\n" ∧
    emit .plain ((lgDemo.setConsole false).setLogFileActive false) sysDemo
      "2015-10-21 07:28:00" "bolt stuck" .error =
      ((lgDemo.setConsole false).setLogFileActive false, sysDemo) :=
  ⟨by decide,
    (((emit_sinks_independent .plain lgDemo sysDemo "2015-10-21 07:28:00" "bolt stuck"
      .error).1 (by decide)).1).trans (by decide),
    (((emit_sinks_independent .plain lgDemo sysDemo "2015-10-21 07:28:00" "bolt stuck"
      .error).1 (by decide)).2.2.1 "/var/log/old.log").trans (by decide),
    (emit_sinks_independent .plain ((lgDemo.setConsole false).setLogFileActive false) sysDemo
      "2015-10-21 07:28:00" "bolt stuck" .error).2 rfl rfl⟩

/-- C3: when the open of `path` fails, `setLogFile` throws the runtime error with the
message "Unable to open " followed by the path; the stream it leaves behind is closed
whatever it was before, nothing else of the logger or of the environment has changed,
and no later sequence of emits changes any file. -/
theorem setLogFile_open_failure (lg : Logger) (sys : Sys) (path : String)
    (h : sys.openable path = false) :
    setLogFile lg sys path =
      .threw ("Unable to open " ++ path) { lg with _logFile := none } sys ∧
    (setLogFile lg sys path).logger._logFile = none ∧
    ∀ (b : Build) (es : List (String × String × LogLevel)),
      (emitAll b (setLogFile lg sys path).logger (setLogFile lg sys path).sys es).2.fs =
        sys.fs := by
  rw [setLogFile_of_not_openable lg sys path h]
  refine ⟨rfl, rfl, fun b es => ?_⟩
  exact emitAll_fs_closed b _ sys es rfl

theorem setLogFile_open_failure_witness :
    sysDemo.openable "/no/such/dir/door.log" = false ∧
    setLogFile { lgDemo with _logFile := some "/var/log/old.log" } sysDemo
        "/no/such/dir/door.log" =
      .threw "Unable to open /no/such/dir/door.log" lgDemo sysDemo :=
  ⟨by decide,
    (setLogFile_open_failure { lgDemo with _logFile := some "/var/log/old.log" } sysDemo
      "/no/such/dir/door.log" (by decide)).1⟩

/-- C4 as stated fails: in the ANSI build, after `setLogFile` on a path that can be
opened, a passing emit with the file sink enabled does not append the plain decorated
line to the file; the line it appends carries the colour escapes. -/
theorem ansi_redirect_record_not_plain :
    lgDemo._logFileActive = true ∧ sysDemo.openable "/var/log/old.log" = true ∧
    LogLevel.info.ord ≤ lgDemo._level.ord ∧
    (emit .ansi (setLogFile lgDemo sysDemo "/var/log/old.log").logger
        (setLogFile lgDemo sysDemo "/var/log/old.log").sys
        "2015-10-21 07:28:00" "door locked" .info).2.fs "/var/log/old.log" =
      some "kept\n\x1b[1m\x1b[32m[2015-10-21 07:28:00] -- INFO    :: door locked\x1b[0m\n" ∧
    (emit .ansi (setLogFile lgDemo sysDemo "/var/log/old.log").logger
        (setLogFile lgDemo sysDemo "/var/log/old.log").sys
        "2015-10-21 07:28:00" "door locked" .info).2.fs "/var/log/old.log" ≠
      some ("kept\n" ++ (plainLine "2015-10-21 07:28:00" "door locked" .info ++ "\n")) := by
  refine ⟨by decide, by decide, by decide, ?_, ?_⟩ <;> decide

/-- C4 (amended): with the file sink enabled and `p`, `q` two different paths that can be
opened: `setLogFile p` returns with the stream open on `p` and the content of `p` kept
(an empty file is created when there was none); one emit at a passing level then appends
exactly one newline-terminated line to `p` and touches no other file; the line is the
plain decorated line in the build without colours and in the `_WIN32` build, and in the
ANSI build the plain decorated line between the colour-start escape of the level and the
colour-reset escape, which is never the plain line; after `setLogFile q` any sequence of
emits leaves `p` as it is and appends the lines of its passing emits, each of the same
format, to `q`. -/
theorem setLogFile_redirects (b : Build) (lg : Logger) (sys : Sys) (p q ts m : String)
    (L : LogLevel) (es : List (String × String × LogLevel))
    (ha : lg._logFileActive = true) (hp : sys.openable p = true)
    (hq : sys.openable q = true) (hqp : q ≠ p) (hL : L.ord ≤ lg._level.ord) :
    let o1 := setLogFile lg sys p
    let s1 := emit b o1.logger o1.sys ts m L
    let o2 := setLogFile s1.1 s1.2 q
    let s2 := emitAll b o2.logger o2.sys es
    o1 = .returned { lg with _logFile := some p } (sys.appendFile p "") ∧
    o1.sys.fs p = some ((sys.fs p).getD "") ∧
    s1.2.fs p = some ((sys.fs p).getD "" ++
      ((if b = .ansi then prefix_ansicolor L ++ plainLine ts m L ++ suffix_ansireset
        else plainLine ts m L) ++ "\n")) ∧
    (∀ r, r ≠ p → s1.2.fs r = sys.fs r) ∧
    o2 = .returned { lg with _logFile := some q } (s1.2.appendFile q "") ∧
    s2.2.fs p = s1.2.fs p ∧
    s2.2.fs q = some ((sys.fs q).getD "" ++ fileRecords b lg._level es) ∧
    (∀ (ts1 m1 : String) (K : LogLevel), fileRecord b ts1 m1 K =
      (if b = .ansi then prefix_ansicolor K ++ plainLine ts1 m1 K ++ suffix_ansireset
        else plainLine ts1 m1 K) ++ "\n") ∧
    (b = .ansi → fileRecord b ts m L ≠ plainLine ts m L ++ "\n") := by
  intro o1 s1 o2 s2
  have ho1 : o1 = .returned { lg with _logFile := some p } (sys.appendFile p "") :=
    setLogFile_of_openable lg sys p hp
  have hs1fs : ∀ r, s1.2.fs r =
      if r = p then some ((sys.fs p).getD "" ++ fileRecord b ts m L) else sys.fs r := by
    intro r
    show (emit b o1.logger o1.sys ts m L).2.fs r = _
    rw [ho1]
    simp only [Outcome.logger, Outcome.sys]
    rw [emit_fs_open b { lg with _logFile := some p } (sys.appendFile p "") ts m L p hL ha rfl r]
    by_cases hr : r = p <;> simp [hr, Sys.appendFile]
  have hs1lg : s1.1 = { lg with _logFile := some p } := by
    show (emit b o1.logger o1.sys ts m L).1 = _
    rw [emit_fst, ho1]
    rfl
  have hs1op : s1.2.openable q = true := by
    show (emit b o1.logger o1.sys ts m L).2.openable q = true
    rw [emit_openable, ho1]
    exact hq
  have ho2 : o2 = .returned { lg with _logFile := some q } (s1.2.appendFile q "") := by
    show setLogFile s1.1 s1.2 q = _
    rw [setLogFile_of_openable s1.1 s1.2 q hs1op, hs1lg]
  have hs2fs : ∀ r, s2.2.fs r =
      if r = q then
        (if fileRecords b lg._level es = "" then (s1.2.appendFile q "").fs r
          else some (((s1.2.appendFile q "").fs r).getD "" ++ fileRecords b lg._level es))
      else (s1.2.appendFile q "").fs r := by
    intro r
    show (emitAll b o2.logger o2.sys es).2.fs r = _
    rw [ho2]
    simp only [Outcome.logger, Outcome.sys]
    exact emitAll_fs_open b { lg with _logFile := some q } (s1.2.appendFile q "") es q ha rfl r
  have hpq : ¬ p = q := fun e => hqp e.symm
  have hfmt : ∀ (ts1 m1 : String) (K : LogLevel), fileRecord b ts1 m1 K =
      (if b = .ansi then prefix_ansicolor K ++ plainLine ts1 m1 K ++ suffix_ansireset
        else plainLine ts1 m1 K) ++ "\n" := fileRecord_format b
  refine ⟨ho1, ?_, ?_, ?_, ho2, ?_, ?_, hfmt, ?_⟩
  · rw [ho1]
    simp [Outcome.sys, Sys.appendFile]
  · rw [hs1fs p, if_pos rfl, hfmt ts m L]
  · intro r hr
    rw [hs1fs r]
    simp [hr]
  · rw [hs2fs p]
    simp [hpq, Sys.appendFile]
  · rw [hs2fs q]
    have hq1 : (s1.2.appendFile q "").fs q = some ((sys.fs q).getD "") := by
      simp [Sys.appendFile, hs1fs q, hqp]
    rw [hq1]
    by_cases he : fileRecords b lg._level es = ""
    · simp [he]
    · simp [he]
  · intro hb
    rw [hb]
    exact fileRecord_ansi_ne_plain ts m L

theorem setLogFile_redirects_witness :
    lgDemo._logFileActive = true ∧ sysDemo.openable "/var/log/old.log" = true ∧
    sysDemo.openable "/var/log/new.log" = true ∧ "/var/log/new.log" ≠ "/var/log/old.log" ∧
    LogLevel.info.ord ≤ lgDemo._level.ord ∧
    (emit .plain (setLogFile lgDemo sysDemo "/var/log/old.log").logger
        (setLogFile lgDemo sysDemo "/var/log/old.log").sys
        "2015-10-21 07:28:00" "door locked" .info).2.fs "/var/log/old.log" =
      some "kept\n[2015-10-21 07:28:00] -- INFO    :: door locked\n" ∧
    (emit .ansi (setLogFile lgDemo sysDemo "/var/log/old.log").logger
        (setLogFile lgDemo sysDemo "/var/log/old.log").sys
        "2015-10-21 07:28:00" "door locked" .info).2.fs "/var/log/old.log" =
      some "kept\n\x1b[1m\x1b[32m[2015-10-21 07:28:00] -- INFO    :: door locked\x1b[0m\n" ∧
    (emitAll .ansi
        (setLogFile
          (emit .ansi (setLogFile lgDemo sysDemo "/var/log/old.log").logger
            (setLogFile lgDemo sysDemo "/var/log/old.log").sys
            "2015-10-21 07:28:00" "door locked" .info).1
          (emit .ansi (setLogFile lgDemo sysDemo "/var/log/old.log").logger
            (setLogFile lgDemo sysDemo "/var/log/old.log").sys
            "2015-10-21 07:28:00" "door locked" .info).2 "/var/log/new.log").logger
        (setLogFile
          (emit .ansi (setLogFile lgDemo sysDemo "/var/log/old.log").logger
            (setLogFile lgDemo sysDemo "/var/log/old.log").sys
            "2015-10-21 07:28:00" "door locked" .info).1
          (emit .ansi (setLogFile lgDemo sysDemo "/var/log/old.log").logger
            (setLogFile lgDemo sysDemo "/var/log/old.log").sys
            "2015-10-21 07:28:00" "door locked" .info).2 "/var/log/new.log").sys
        [("2015-10-21 07:29:00", "door unlocked", .notice),
          ("2015-10-21 07:29:01", "bolt position 3", .debug)]).2.fs "/var/log/new.log" =
      some "\x1b[1m\x1b[34m[2015-10-21 07:29:00] -- NOTICE  :: door unlocked\x1b[0m\n" :=
  ⟨by decide, by decide, by decide, by decide, by decide,
    ((setLogFile_redirects .plain lgDemo sysDemo "/var/log/old.log" "/var/log/new.log"
      "2015-10-21 07:28:00" "door locked" .info
      [("2015-10-21 07:29:00", "door unlocked", .notice),
        ("2015-10-21 07:29:01", "bolt position 3", .debug)]
      (by decide) (by decide) (by decide) (by decide) (by decide)).2.2.1).trans (by decide),
    ((setLogFile_redirects .ansi lgDemo sysDemo "/var/log/old.log" "/var/log/new.log"
      "2015-10-21 07:28:00" "door locked" .info
      [("2015-10-21 07:29:00", "door unlocked", .notice),
        ("2015-10-21 07:29:01", "bolt position 3", .debug)]
      (by decide) (by decide) (by decide) (by decide) (by decide)).2.2.1).trans (by decide),
    ((setLogFile_redirects .ansi lgDemo sysDemo "/var/log/old.log" "/var/log/new.log"
      "2015-10-21 07:28:00" "door locked" .info
      [("2015-10-21 07:29:00", "door unlocked", .notice),
        ("2015-10-21 07:29:01", "bolt position 3", .debug)]
      (by decide) (by decide) (by decide) (by decide) (by decide)).2.2.2.2.2.2.1).trans
      (by decide)⟩

/-- C5: in the build without colours the record of an emit that passes the threshold is
"[" ++ ts ++ "] -- " ++ label ++ " :: " ++ m followed by a newline, where the label is
the level name left-justified with spaces to exactly 7 characters (it is the entry of the
table `logLevel`); the console, when enabled, and the open log file, when enabled, both
receive exactly this text. -/
theorem plain_record_format (lg : Logger) (sys : Sys) (ts m : String) (L : LogLevel)
    (h : L.ord ≤ lg._level.ord) :
    plainLine ts m L = "[" ++ ts ++ "] -- " ++ ljust 7 (levelName L) ++ " :: " ++ m ∧
    ljust 7 (levelName L) = logLevel L ∧
    (ljust 7 (levelName L)).length = 7 ∧
    (lg._consoleActive = true →
      (emit .plain lg sys ts m L).2.cerr = sys.cerr ++ (plainLine ts m L ++ "\n")) ∧
    (∀ p, lg._logFileActive = true → lg._logFile = some p →
      (emit .plain lg sys ts m L).2.fs p =
        some ((sys.fs p).getD "" ++ (plainLine ts m L ++ "\n"))) := by
  refine ⟨rfl, (logLevel_eq_ljust L).symm, ljust_levelName_length L, fun hc => ?_,
    fun p ha hp => ?_⟩
  · rw [emit_cerr .plain lg sys ts m L h, if_pos hc, (record_plain ts m L).1]
  · rw [emit_fs_open .plain lg sys ts m L p h ha hp p, if_pos rfl, (record_plain ts m L).2]

theorem plain_record_format_witness :
    LogLevel.info.ord ≤ lgDemo._level.ord ∧
    (emit .plain lgDemo sysDemo "2015-10-21 07:28:00" "door locked" .info).2.cerr =
      "[2015-10-21 07:28:00] -- INFO    :: door locked\n" :=
  ⟨by decide,
    ((plain_record_format lgDemo sysDemo "2015-10-21 07:28:00" "door locked" .info
      (by decide)).2.2.2.1 rfl).trans (by decide)⟩

/-- C6 (the code at a failing input): when the size probe `vsnprintf(nullptr, 0, ...)`
reports the failure value `-1`, `size` is `0`, the test `size >= 0` holds and the
fallback is not taken: no diagnostic reaches the console, and the call ends in undefined
behaviour (a buffer of zero bytes read as a C string) instead of returning. -/
theorem emitf_probe_failure_not_diagnosed :
    emitf .plain lgDemo sysDemo "2015-10-21 07:28:00" .info
        { probe := -1, mallocOk := true, text := "" } =
      .undefined lgDemo sysDemo ∧
    (emitf .plain lgDemo sysDemo "2015-10-21 07:28:00" .info
        { probe := -1, mallocOk := true, text := "" }).sys.cerr = "" ∧
    (emit .plain lgDemo sysDemo "2015-10-21 07:28:00" "[LOGGER] CRITICAL: VSNPRINTF ERROR"
        .error).2.cerr =
      "[2015-10-21 07:28:00] -- ERROR   :: [LOGGER] CRITICAL: VSNPRINTF ERROR\n" := by
  refine ⟨?_, ?_, by decide⟩
  · exact emitf_probe_minus_one .plain lgDemo sysDemo _ .info _ (by decide) rfl
  · rw [emitf_probe_minus_one .plain lgDemo sysDemo _ .info _ (by decide) rfl]
    rfl

/-- C7 (the code at a failing input): when `malloc` returns null the diagnostic is
emitted, but the call does not return there: it goes on to format into the null buffer
and to build a `std::string` from it, which is undefined behaviour. -/
theorem emitf_malloc_failure_falls_through :
    emitf .plain lgDemo sysDemo "2015-10-21 07:28:00" .info
        { probe := 11, mallocOk := false, text := "door locked" } =
      .undefined lgDemo
        { sysDemo with
          cerr := "[2015-10-21 07:28:00] -- ERROR   :: [LOGGER] CRITICAL: MEMORY ALLOCATION ERROR\n" } ∧
    ∀ lg sys, emitf .plain lgDemo sysDemo "2015-10-21 07:28:00" .info
        { probe := 11, mallocOk := false, text := "door locked" } ≠ .returned lg sys := by
  have h := emitf_malloc_failed .plain lgDemo sysDemo "2015-10-21 07:28:00" .info
    { probe := 11, mallocOk := false, text := "door locked" } (by decide) (by decide)
    (by decide) rfl
  refine ⟨?_, fun lg sys => ?_⟩
  · rw [h]
    rfl
  · rw [h]
    intro hc
    cases hc

/-- C8: the formatted emit filters as the plain emit does and before anything else: at a
level strictly less severe than the threshold both return the logger and the environment
unchanged, whatever `vsnprintf` and `malloc` would have answered; at a level that passes,
when the size probe succeeds (with `probe + 1` within `int`) and the allocation succeeds,
the formatted emit returns with the logger and the environment of the plain emit of the
expanded text at the same level. -/
theorem emitf_refines_emit (b : Build) (lg : Logger) (sys : Sys) (ts : String)
    (L : LogLevel) (v : Vsnprintf) :
    (lg._level.ord < L.ord →
      emitf b lg sys ts L v = .returned lg sys ∧ emit b lg sys ts v.text L = (lg, sys)) ∧
    (L.ord ≤ lg._level.ord → 0 ≤ v.probe → v.probe < 2 ^ 31 - 1 → v.mallocOk = true →
      emitf b lg sys ts L v =
        .returned (emit b lg sys ts v.text L).1 (emit b lg sys ts v.text L).2) := by
  refine ⟨fun h => ⟨?_, emit_filtered b lg sys ts v.text L h⟩, fun h h0 h1 hm => ?_⟩
  · unfold emitf
    rw [if_pos h]
  · unfold emitf
    rw [if_neg (by omega), if_neg (by omega)]
    simp only []
    rw [if_pos (by omega)]
    simp only [hm, Bool.not_true, Bool.false_eq_true, if_false]
    rw [if_neg (by omega)]

theorem emitf_refines_emit_witness :
    lgDemo._level.ord < LogLevel.debug.ord ∧ LogLevel.info.ord ≤ lgDemo._level.ord ∧
    emitf .plain lgDemo sysDemo "2015-10-21 07:28:00" .debug
        { probe := -1, mallocOk := false, text := "" } = .returned lgDemo sysDemo ∧
    (emitf .plain lgDemo sysDemo "2015-10-21 07:28:00" .info
        { probe := 11, mallocOk := true, text := "door locked" }).sys.cerr =
      "[2015-10-21 07:28:00] -- INFO    :: door locked\n" :=
  ⟨by decide, by decide,
    ((emitf_refines_emit .plain lgDemo sysDemo "2015-10-21 07:28:00" .debug
      { probe := -1, mallocOk := false, text := "" }).1 (by decide)).1,
    (congrArg Outcome.sys ((emitf_refines_emit .plain lgDemo sysDemo "2015-10-21 07:28:00"
      .info { probe := 11, mallocOk := true, text := "door locked" }).2 (by decide)
      (by decide) (by decide) rfl) |>.symm ▸ (by decide :
        (emit .plain lgDemo sysDemo "2015-10-21 07:28:00" "door locked" .info).2.cerr =
          "[2015-10-21 07:28:00] -- INFO    :: door locked\n"))⟩

/-- C9 as stated fails: in the ANSI build an emit writes the colour escapes to the log
file as well; the file does not receive the plain decorated line. -/
theorem ansi_file_record_not_plain :
    (emit .ansi { lgDemo with _logFile := some "/var/log/old.log" } sysDemo
        "2015-10-21 07:28:00" "bolt stuck" .error).2.fs "/var/log/old.log" =
      some "kept\n\x1b[1m\x1b[31m[2015-10-21 07:28:00] -- ERROR   :: bolt stuck\x1b[0m\n" ∧
    (emit .ansi { lgDemo with _logFile := some "/var/log/old.log" } sysDemo
        "2015-10-21 07:28:00" "bolt stuck" .error).2.fs "/var/log/old.log" ≠
      some ("kept\n" ++ (plainLine "2015-10-21 07:28:00" "bolt stuck" .error ++ "\n")) := by
  constructor <;> decide

/-- C9 (amended): in the ANSI build the record of an emit that passes the threshold is
the plain decorated line with the colour-start escape of the level right before the "["
of the timestamp and the colour-reset escape right after the message, followed by a
newline; the console, when enabled, and the open log file, when enabled, both receive
this same text, escapes included. -/
theorem ansi_record_format (lg : Logger) (sys : Sys) (ts m : String) (L : LogLevel)
    (h : L.ord ≤ lg._level.ord) :
    (lg._consoleActive = true →
      (emit .ansi lg sys ts m L).2.cerr =
        sys.cerr ++ (prefix_ansicolor L ++ plainLine ts m L ++ suffix_ansireset ++ "\n")) ∧
    (∀ p, lg._logFileActive = true → lg._logFile = some p →
      (emit .ansi lg sys ts m L).2.fs p =
        some ((sys.fs p).getD "" ++
          (prefix_ansicolor L ++ plainLine ts m L ++ suffix_ansireset ++ "\n"))) ∧
    fileRecord .ansi ts m L = consoleRecord .ansi ts m L := by
  refine ⟨fun hc => ?_, fun p ha hp => ?_, rfl⟩
  · rw [emit_cerr .ansi lg sys ts m L h, if_pos hc, (record_ansi ts m L).1]
  · rw [emit_fs_open .ansi lg sys ts m L p h ha hp p, if_pos rfl, (record_ansi ts m L).2]

theorem ansi_record_format_witness :
    LogLevel.error.ord ≤ lgDemo._level.ord ∧
    (emit .ansi lgDemo sysDemo "2015-10-21 07:28:00" "bolt stuck" .error).2.cerr =
      "\x1b[1m\x1b[31m[2015-10-21 07:28:00] -- ERROR   :: bolt stuck\x1b[0m\n" :=
  ⟨by decide,
    ((ansi_record_format lgDemo sysDemo "2015-10-21 07:28:00" "bolt stuck" .error
      (by decide)).1 rfl).trans (by decide)⟩

/-- C10: the setter of the threshold changes `_level` only and the getter then returns
the new value; likewise `console(b)` for `_consoleActive` and `logFile(b)` for
`_logFileActive`, which leaves the stream as it is; the plain emit and the formatted emit
leave every member of the logger as it was, on every path.  Of the operations only
`setLogFile` and the destructor change whether the stream is open. -/
theorem logger_frame (b : Build) (lg : Logger) (sys : Sys) (ts m path : String)
    (T L : LogLevel) (a : Bool) (v : Vsnprintf) :
    ((lg.setLevel T).level = T ∧ (lg.setLevel T)._consoleActive = lg._consoleActive ∧
      (lg.setLevel T)._logFileActive = lg._logFileActive ∧
      (lg.setLevel T)._logFile = lg._logFile) ∧
    ((lg.setConsole a).console = a ∧ (lg.setConsole a)._level = lg._level ∧
      (lg.setConsole a)._logFileActive = lg._logFileActive ∧
      (lg.setConsole a)._logFile = lg._logFile) ∧
    ((lg.setLogFileActive a).logFile = a ∧ (lg.setLogFileActive a)._level = lg._level ∧
      (lg.setLogFileActive a)._consoleActive = lg._consoleActive ∧
      (lg.setLogFileActive a)._logFile = lg._logFile) ∧
    (emit b lg sys ts m L).1 = lg ∧
    (emitf b lg sys ts L v).logger = lg ∧
    (setLogFile lg sys path).logger._logFile =
      (if sys.openable path = true then some path else none) ∧
    lg.destroy._logFile = none := by
  refine ⟨⟨rfl, rfl, rfl, rfl⟩, ⟨rfl, rfl, rfl, rfl⟩, ⟨rfl, rfl, rfl, rfl⟩,
    emit_fst b lg sys ts m L, emitf_logger b lg sys ts L v, ?_, ?_⟩
  · cases ho : sys.openable path
    · rw [setLogFile_of_not_openable lg sys path ho]
      simp [Outcome.logger]
    · rw [setLogFile_of_openable lg sys path ho]
      simp [Outcome.logger]
  · unfold Logger.destroy
    cases hp : lg._logFile <;> simp [hp]

end Doorlockd
